import Mathlib

/-!
Verification development for the attrition-dashboard repository.

The repository is a Streamlit dashboard over a spreadsheet-backed table of
attrition predictions.  The definitions below are a shallow embedding of the
data-handling core of the five Python source files:

- `dashboard_app_v2.py` / `dashboard_app_v4.py`: `load_data` probability
  normalization, the row filters of the view, and the
  Save Comments / Delete Selected button handlers;
- `google_sheets_utils.py` / `google_sheets_utils_v2.py`: `get_sheet_data`
  and `update_sheet_data` over the raw list-of-lists sheet values.

Cells are modelled as `String`s (the remote store delivers strings), and
numbers parsed from cells as exact scaled decimals (`Dec`, meaning
`m / 10 ^ e`), which is the value domain the parsed decimal literals of this
application live in; `Dec.toRat` gives their rational value.
-/

/-- An exact decimal number `m / 10 ^ e`.  Python floats produced by parsing
the short decimal literals this application reads and writes are exact, so a
scaled integer is a faithful value model for them. -/
structure Dec where
  m : Int
  e : Nat
deriving DecidableEq, Repr

/-- Rational value of a `Dec`. -/
def Dec.toRat (d : Dec) : ℚ := (d.m : ℚ) / (10 : ℚ) ^ d.e

/-- Test `1 < d` on the scaled representation. -/
def Dec.gtOne (d : Dec) : Bool := decide ((10 : Int) ^ d.e < d.m)

/-- Division by 100, exact on the scaled representation. -/
def Dec.div100 (d : Dec) : Dec := ⟨d.m, d.e + 2⟩

/-- Value equality of two scaled decimals (cross multiplication). -/
def Dec.veq (a b : Dec) : Bool := decide (a.m * 10 ^ b.e = b.m * 10 ^ a.e)

theorem Dec.gtOne_iff (d : Dec) : d.gtOne = true ↔ 1 < d.toRat := by
  have hp : (0 : ℚ) < (10 : ℚ) ^ d.e := by positivity
  rw [Dec.gtOne, Dec.toRat, decide_eq_true_iff, lt_div_iff₀ hp, one_mul]
  exact_mod_cast Iff.rfl

theorem Dec.toRat_div100 (d : Dec) : d.div100.toRat = d.toRat / 100 := by
  rw [Dec.div100, Dec.toRat, Dec.toRat]
  rw [div_div]
  norm_num [pow_add]

theorem Dec.veq_iff (a b : Dec) : a.veq b = true ↔ a.toRat = b.toRat := by
  have hpa : (0 : ℚ) < (10 : ℚ) ^ a.e := by positivity
  have hpb : (0 : ℚ) < (10 : ℚ) ^ b.e := by positivity
  rw [Dec.veq, decide_eq_true_iff, Dec.toRat, Dec.toRat,
    div_eq_div_iff hpa.ne' hpb.ne']
  exact_mod_cast Iff.rfl

theorem Dec.le_one_iff (d : Dec) : d.toRat ≤ 1 ↔ d.m ≤ 10 ^ d.e := by
  have hp : (0 : ℚ) < (10 : ℚ) ^ d.e := by positivity
  rw [Dec.toRat, div_le_one hp]
  exact_mod_cast Iff.rfl

theorem Dec.nonneg_iff (d : Dec) : 0 ≤ d.toRat ↔ 0 ≤ d.m := by
  have hp : (0 : ℚ) < (10 : ℚ) ^ d.e := by positivity
  rw [Dec.toRat, le_div_iff₀ hp, zero_mul]
  exact_mod_cast Iff.rfl

/-- Numeric value of a list of decimal digit characters, most significant
first (the usual positional reading). -/
def digitsVal (cs : List Char) : Nat :=
  cs.foldl (fun a c => 10 * a + (c.toNat - 48)) 0

/-- Split a character list on the dot character, keeping empty groups. -/
def splitOnDot : List Char → List (List Char)
  | [] => [[]]
  | c :: cs =>
    if c = '.' then [] :: splitOnDot cs
    else
      match splitOnDot cs with
      | [] => [[c]]
      | g :: gs => (c :: g) :: gs

/-- Whether every character is a decimal digit. -/
def isDigits (cs : List Char) : Bool := cs.all Char.isDigit

/-- Model of Python `float(...)` / `pd.to_numeric(..., errors="coerce")` on
the plain decimal literals this application reads and writes: an optional
sign, digits, and at most one dot ("42", "0.42", ".5", "42.").  Exponents,
whitespace and special values are outside the shapes any claim exercises and
are not modelled; `none` models a parse failure (a `ValueError` for
`float`, a coerced `NaN` for `pd.to_numeric`). -/
def parseDecChars (cs : List Char) : Option Dec :=
  let signBody : Int × List Char :=
    match cs with
    | '-' :: t => (-1, t)
    | '+' :: t => (1, t)
    | _ => (1, cs)
  let sign := signBody.1
  let body := signBody.2
  match splitOnDot body with
  | [ip] =>
    if ip ≠ [] ∧ isDigits ip then some ⟨sign * digitsVal ip, 0⟩ else none
  | [ip, fp] =>
    if (ip ≠ [] ∨ fp ≠ []) ∧ isDigits ip ∧ isDigits fp then
      some ⟨sign * (digitsVal ip * 10 ^ fp.length + digitsVal fp), fp.length⟩
    else none
  | _ => none

/-- String-level entry point of the decimal parser. -/
def parseDec (s : String) : Option Dec := parseDecChars s.data

/-- Model of `str.rstrip("%")`: drop every trailing percent sign
(`dashboard_app_v2.py`, line 70). -/
def rstripPct (s : String) : String :=
  String.mk ((s.data.reverse.dropWhile (fun c => c = '%')).reverse)

/-- Model of `str.replace("%", "")`: drop every percent sign
(`dashboard_app_v4.py`, line 59). -/
def stripPct (s : String) : String :=
  String.mk (s.data.filter (fun c => c ≠ '%'))

/-- Probability normalization of `load_data` in `dashboard_app_v2.py`
(line 70): `astype(str).str.rstrip("%").astype("float") / 100.0`.  The
division by 100 is unconditional.  `none` models the `ValueError` raised by
`astype("float")` on an unparseable cell, which aborts the whole load (the
surrounding `try` returns `None`). -/
def v2NormProb (s : String) : Option Dec :=
  (parseDec (rstripPct s)).map Dec.div100

/-- Probability normalization of `load_data` in `dashboard_app_v4.py`
(lines 58-68): strip `%` signs, `pd.to_numeric(..., errors="coerce")`,
divide by 100 exactly when the parsed value is greater than 1, and
`fillna(0)`. -/
def v4NormProbCell (s : String) : Dec :=
  match parseDec (stripPct s) with
  | none => ⟨0, 0⟩
  | some d => if d.gtOne then d.div100 else d

/-- A cell of the pandas probability column as the v4 pipeline sees it:
either a raw string from the store, an already-parsed number, or a missing
value (`NaN`). -/
inductive PCell where
  | str (s : String)
  | num (d : Dec)
  | na
deriving DecidableEq, Repr

/-- The v4 probability pipeline applied to an arbitrary column cell
(`dashboard_app_v4.py` lines 58-68 on load, and again on lines 119-122 on
the already-normalized cached column).  On a numeric cell, `astype(str)`
followed by `pd.to_numeric` recovers the same value (Python float `repr`
round-trips, and the rendered string contains no percent sign), so the model
short-circuits that string round trip. -/
def v4NormAny : PCell → Dec
  | PCell.na => ⟨0, 0⟩
  | PCell.num d => if d.gtOne then d.div100 else d
  | PCell.str s => v4NormProbCell s

/-- Model of `pd.to_datetime` followed by comparison, for the ISO-format
date strings this application reads and writes: a bare date
`"YYYY-MM-DD"` (length 10) denotes midnight, so it is padded to the full
`"YYYY-MM-DD HH:MM:SS"` rendering; a full timestamp is kept as is.  Two
cells denote the same `datetime` exactly when their padded forms are equal,
and `strftime("%Y-%m-%d %H:%M:%S")` reproduces the padded form. -/
def normDT (s : String) : String :=
  if s.length = 10 then s ++ " 00:00:00" else s

/-- Model of `pd.to_datetime(...).strftime("%Y-%m-%d")` on an ISO-format
date or timestamp string: keep the date portion (first 10 characters). -/
def dateOnly (s : String) : String := String.mk (s.data.take 10)

theorem normDT_idem (s : String) : normDT (normDT s) = normDT s := by
  by_cases h : s.length = 10
  · have hlen : (s ++ " 00:00:00").length = 19 := by
      rw [String.length_append, h]; decide
    simp only [normDT, if_pos h]
    rw [if_neg (by rw [hlen]; decide)]
  · simp [normDT, h]

/-- Render a natural number in decimal. -/
def natStr (n : Nat) : String := String.mk (Nat.toDigits 10 n)

/-- Model of Python `f"{x:.2%}"` for the nonnegative probabilities this
application formats: the value times 100, rendered with two decimal places
and a trailing percent sign.  The scaled integer `n` is the value in
hundredths of a percent; the model rounds halves up where Python rounds
them to even, which agrees everywhere off exact ties (no tie is exercised
by any claim). -/
def formatPct2 (d : Dec) : String :=
  let n : Nat := ((2 * d.m * 10000 + 10 ^ d.e) / (2 * (10 : Int) ^ d.e)).toNat
  let whole := n / 100
  let frac := n % 100
  natStr whole ++ "." ++ (if frac < 10 then "0" ++ natStr frac else natStr frac) ++ "%"

/-- Re-serialization of one probability cell by the v2 Save Comments
handler (`dashboard_app_v2.py`, lines 348-353):
`pd.to_numeric(..., errors="coerce")` then `f"{x:.2%}" if pd.notnull(x)
else ""`.  Note the raw cell is parsed without stripping percent signs, so
a stored `"42.00%"` coerces to `NaN` and is rewritten as `""`. -/
def v2SaveProbCell (s : String) : String :=
  match parseDec s with
  | none => ""
  | some d => formatPct2 d

/-- One row of the v2 authoritative table (`Tracking` sheet) as the v2
button handlers see it: the columns they touch by name, plus `rest` for
the cells of every other column (never touched by the handlers). -/
structure RowV2 where
  empId : String
  date : String
  prob : String
  hr : String
  ops : String
  rest : List String
deriving DecidableEq, Repr

/-- One row of the user-edited projection handed to the v2 Save Comments
handler: the composite identity plus the editable comment fields. -/
structure EditV2 where
  empId : String
  date : String
  hr : String
  ops : String
deriving DecidableEq, Repr

/-- Conversion of the date cell to `datetime` applied to every
authoritative row before matching (`dashboard_app_v2.py`, line 330). -/
def v2NormRow (r : RowV2) : RowV2 := { r with date := normDT r.date }

/-- The composite-identity mask of the v2 Save Comments loop
(`dashboard_app_v2.py`, lines 335-336), on a date-normalized row. -/
def matchV2 (e : EditV2) (r : RowV2) : Bool :=
  r.empId = e.empId && r.date = normDT e.date

/-- Effect of one edited row on one matching authoritative row
(`dashboard_app_v2.py`, lines 338-339). -/
def v2Step (e : EditV2) (r : RowV2) : RowV2 :=
  if matchV2 e r then { r with hr := e.hr, ops := e.ops } else r

/-- Re-serialization applied to every row before the sheet write
(`dashboard_app_v2.py`, lines 341-353): the date cell was already
normalized before matching and `strftime` reproduces it, and the
probability cell is reformatted as a percentage string. -/
def v2Serialize (r : RowV2) : RowV2 :=
  { r with prob := v2SaveProbCell r.prob }

/-- The v2 Save Comments handler (`dashboard_app_v2.py`, lines 321-356)
as a function of the edited projection and the re-read authoritative
table: normalize dates, apply every edited row to all matching
authoritative rows, re-serialize every row, and write the whole table
back.  The `if mask.any()` guard of the source is a no-op refinement:
applying an edit to its (empty) match set changes nothing. -/
def saveCommentsV2 (edits : List EditV2) (t : List RowV2) : List RowV2 :=
  (edits.foldl (fun acc e => acc.map (v2Step e)) (t.map v2NormRow)).map v2Serialize

/-- One row of the v4 authoritative table: the columns the v4 handlers
touch by name, `otherDisplay` for the cells of the remaining display
columns, and `extraCols` for the cells of authoritative columns that are
not in `display_cols` (dropped by the v4 save, see `save_cols` at
`dashboard_app_v4.py` lines 421-423). -/
structure RowV4 where
  empId : String
  date : String
  hr : String
  ops : String
  regret : String
  otherDisplay : List String
  extraCols : List String
deriving DecidableEq, Repr

/-- One row of the user-edited projection handed to the v4 Save Comments
handler. -/
structure EditV4 where
  empId : String
  date : String
  hr : String
  ops : String
  regret : String
deriving DecidableEq, Repr

/-- Date standardization applied to every authoritative row before
matching (`dashboard_app_v4.py`, line 407). -/
def v4NormRow (r : RowV4) : RowV4 := { r with date := dateOnly r.date }

/-- The composite-identity mask of the v4 Save Comments loop
(`dashboard_app_v4.py`, lines 410-415), on a date-standardized row; the
`astype(str)` on `Employee ID` is the identity on our string cells. -/
def matchV4 (e : EditV4) (r : RowV4) : Bool :=
  r.empId = e.empId && r.date = dateOnly e.date

/-- Effect of one edited row on one matching authoritative row
(`dashboard_app_v4.py`, lines 416-419). -/
def v4Step (e : EditV4) (r : RowV4) : RowV4 :=
  if matchV4 e r then { r with hr := e.hr, ops := e.ops, regret := e.regret } else r

/-- A row as the v4 save writes it back: `current_df[save_cols]` keeps
the display columns only, so `extraCols` is gone. -/
structure SavedRowV4 where
  empId : String
  date : String
  hr : String
  ops : String
  regret : String
  otherDisplay : List String
deriving DecidableEq, Repr

/-- Projection of an authoritative row onto `save_cols`
(`dashboard_app_v4.py`, lines 421-423). -/
def RowV4.toSaved (r : RowV4) : SavedRowV4 :=
  ⟨r.empId, r.date, r.hr, r.ops, r.regret, r.otherDisplay⟩

/-- The v4 Save Comments handler (`dashboard_app_v4.py`, lines 398-428)
as a function of the edited projection and the re-read authoritative
table. -/
def saveCommentsV4 (edits : List EditV4) (t : List RowV4) : List SavedRowV4 :=
  (edits.foldl (fun acc e => acc.map (v4Step e)) (t.map v4NormRow)).map RowV4.toSaved

/-- Result of a button-handler run: the table written back and the
transient notification message. -/
structure OpResult (α : Type) where
  table : α
  message : String
deriving DecidableEq, Repr

/-- The v4 Save Comments handler including its notification
(`dashboard_app_v4.py`, lines 428-431); the store write is modelled as
succeeding, which is when the success notice is emitted. -/
def saveCommentsV4Run (edits : List EditV4) (t : List RowV4) : OpResult (List SavedRowV4) :=
  ⟨saveCommentsV4 edits t, "Comments saved successfully!"⟩

/-- The v2 Save Comments handler including its notification
(`dashboard_app_v2.py`, lines 356-360); the store write is modelled as
succeeding, which is when the success notice is emitted. -/
def saveCommentsV2Run (edits : List EditV2) (t : List RowV2) : OpResult (List RowV2) :=
  ⟨saveCommentsV2 edits t, "Comments saved successfully!"⟩

/-- The composite identity of a row checked for deletion. -/
structure DelKey where
  empId : String
  date : String
deriving DecidableEq, Repr

/-- The per-key deletion mask of the v2 Delete Selected handler
(`dashboard_app_v2.py`, lines 387-390), on a raw authoritative row whose
date is compared through `pd.to_datetime`. -/
def delMatchV2 (k : DelKey) (r : RowV2) : Bool :=
  r.empId = k.empId && normDT r.date = normDT k.date

/-- Core of the v2 Delete Selected handler (`dashboard_app_v2.py`, lines
384-397): keep exactly the rows matched by no checked key (the source
accumulates `mask & ~delete_mask` over the checked rows, which keeps a row
iff no key matches it), then re-serialize the date cell. -/
def deleteRowsV2 (keys : List DelKey) (t : List RowV2) : List RowV2 :=
  (t.filter (fun r => !(keys.any (fun k => delMatchV2 k r)))).map v2NormRow

/-- The per-key deletion mask of the v4 Delete Selected handler
(`dashboard_app_v4.py`, lines 459-462). -/
def delMatchV4 (k : DelKey) (r : RowV4) : Bool :=
  r.empId = k.empId && normDT r.date = normDT k.date

/-- Core of the v4 Delete Selected handler (`dashboard_app_v4.py`, lines
456-469): keep the unmatched rows, then re-serialize the date cell with
`strftime("%Y-%m-%d")`. -/
def deleteRowsV4 (keys : List DelKey) (t : List RowV4) : List RowV4 :=
  (t.filter (fun r => !(keys.any (fun k => delMatchV4 k r)))).map v4NormRow

/-- One store I/O operation performed by a button handler against the
backing sheet. -/
inductive StoreOp where
  | read
  | write
deriving DecidableEq, Repr

/-- One row of the edited projection as the Delete Selected handlers see
it: the composite identity plus the `Delete` checkbox. -/
structure CheckRow where
  empId : String
  date : String
  del : Bool
deriving DecidableEq, Repr

/-- The v2 Delete Selected handler (`dashboard_app_v2.py`, lines 369-410)
as a function of the edited projection and the backing store, returning
the trace of store operations it performs, the resulting store content,
and the notification message.  The source calls `get_sheet_data` (a store
read) before computing the checked set, so the read appears in the trace
of both branches; only the write is guarded by the emptiness check. -/
def deleteSelectedV2 (edited : List CheckRow) (store : List RowV2) :
    List StoreOp × List RowV2 × String :=
  let toDelete := edited.filter (fun r => r.del)
  if toDelete.isEmpty then
    ([StoreOp.read], store, "No rows selected for deletion")
  else
    ([StoreOp.read, StoreOp.write],
      deleteRowsV2 (toDelete.map (fun r => ⟨r.empId, r.date⟩)) store,
      "Selected rows deleted successfully!")

/-- The v4 Delete Selected handler (`dashboard_app_v4.py`, lines 441-482),
same structure as the v2 one. -/
def deleteSelectedV4 (edited : List CheckRow) (store : List RowV4) :
    List StoreOp × List RowV4 × String :=
  let toDelete := edited.filter (fun r => r.del)
  if toDelete.isEmpty then
    ([StoreOp.read], store, "No rows selected for deletion")
  else
    ([StoreOp.read, StoreOp.write],
      deleteRowsV4 (toDelete.map (fun r => ⟨r.empId, r.date⟩)) store,
      "Selected rows deleted successfully!")

/-- Result of `get_sheet_data` in `google_sheets_utils_v2.py` (lines
38-90): the header row, the normalized data rows, and whether the
truncation warning was emitted. -/
structure SheetV2 where
  header : List String
  rows : List (List String)
  truncWarn : Bool
deriving DecidableEq, Repr

/-- Pad a row on the right with empty-string cells up to width `w`
(`google_sheets_utils_v2.py`, lines 71-77). -/
def padRow (w : Nat) (r : List String) : List String :=
  r ++ List.replicate (w - r.length) ""

/-- Model of `get_sheet_data` in `google_sheets_utils_v2.py` (lines
38-90) on the raw `values` list returned by the sheets API: empty values
give an empty table; otherwise rows longer than the header are truncated
to header width (with a warning), and shorter rows are padded with empty
strings.  The source truncates and pads `values` as a whole and then
splits off the header; since the header row has exactly header width,
truncation and padding are the identity on it, and the model applies the
same per-row normalization to the header and the data rows. -/
def getSheetDataV2 (values : List (List String)) : SheetV2 :=
  match values with
  | [] => ⟨[], [], false⟩
  | hdr :: body =>
    let w := hdr.length
    let maxC := ((hdr :: body).map List.length).foldl Nat.max 0
    let warn : Bool := decide (w < maxC)
    let trunc := fun (r : List String) => if warn then r.take w else r
    ⟨padRow w (trunc hdr), body.map (fun r => padRow w (trunc r)), warn⟩

/-- Model of `get_sheet_data` in `google_sheets_utils.py` (lines 38-63):
no ragged-row normalization is performed before
`pd.DataFrame(values[1:], columns=values[0])`.  On a non-empty list of
data rows that constructor infers the data width from the widest row and
raises a `ValueError` (caught, the load returns `None`, modelled `none`)
whenever that width differs from the header width — a row wider than the
header fails, and so does a table whose widest row is still narrower
than the header.  When the widest row has exactly header width, narrower
rows are padded with `NaN` cells (modelled `Option.none` cells).  An
empty data list gives an empty frame. -/
def getSheetDataV1 (values : List (List String)) :
    Option (List String × List (List (Option String))) :=
  match values with
  | [] => some ([], [])
  | [hdr] => some (hdr, [])
  | hdr :: body =>
    if (body.map List.length).foldl Nat.max 0 = hdr.length then
      some (hdr, body.map (fun r =>
        r.map some ++ List.replicate (hdr.length - r.length) none))
    else none

/-- Model of `update_sheet_data` in `google_sheets_utils_v2.py` (lines
92-135): clear the range, then write the header row followed by the data
rows; the resulting store content is exactly the written values. -/
def updateSheetDataV2 (header : List String) (rows : List (List String)) :
    List (List String) :=
  header :: rows

/-- The round trip of spec section 8: `save(load())` with no edits,
through the v2 store adapter. -/
def roundTripV2 (values : List (List String)) : List (List String) :=
  let d := getSheetDataV2 values
  updateSheetDataV2 d.header d.rows


/-- One row of the canonical (normalized) in-memory table as the view
pipeline sees it: the composite identity, the date portion of the report
date as a day number, the normalized probability value, and the category
columns the filters read. -/
structure CRow where
  empId : String
  day : Int
  prob : ℚ
  risk : String
  cc : String
  tenure : String
deriving DecidableEq

/-- The filter state of the dashboard, merging the two variants: the
always-active date range (`dashboard_app_v2.py` line 97 /
`dashboard_app_v4.py` line 112), the v2 risk-level multiselect and
minimum-probability slider (`dashboard_app_v2.py` lines 242-245), and the
v4 cost-center and tenure-bucket selectors (`dashboard_app_v4.py` lines
113-116); `none` models a deactivated optional filter (the `'All'`
choice, a full multiselect treated as no restriction, a zero slider). -/
structure Filters where
  startDay : Int
  endDay : Int
  riskSet : Option (List String)
  cc : Option String
  tenure : Option String
  minProb : Option ℚ
deriving DecidableEq

/-- Date-range test, inclusive on the date portion on both ends. -/
def passDate (f : Filters) (r : CRow) : Bool :=
  f.startDay ≤ r.day && r.day ≤ f.endDay

/-- Risk-level set membership (`isin`). -/
def passRisk (f : Filters) (r : CRow) : Bool :=
  match f.riskSet with
  | none => true
  | some l => l.contains r.risk

/-- Cost-center equality filter. -/
def passCC (f : Filters) (r : CRow) : Bool :=
  match f.cc with
  | none => true
  | some c => r.cc = c

/-- Tenure-bucket equality filter. -/
def passTenure (f : Filters) (r : CRow) : Bool :=
  match f.tenure with
  | none => true
  | some c => r.tenure = c

/-- Minimum-probability threshold, inclusive. -/
def passProb (f : Filters) (r : CRow) : Bool :=
  match f.minProb with
  | none => true
  | some q => decide (q ≤ r.prob)

/-- The conjunctive row mask of the dashboards. -/
def rowPass (f : Filters) (r : CRow) : Bool :=
  passDate f r && passRisk f r && passCC f r && passTenure f r && passProb f r

/-- The filtering step of the view pipeline (`applyFilters` of the spec). -/
def applyFilters (f : Filters) (t : List CRow) : List CRow :=
  t.filter (rowPass f)

/-- Folding per-edit maps over the table is the same as mapping the
per-row fold of all edits: the handlers act row by row. -/
theorem foldl_map_comm {α β : Type} (f : β → α → α) (es : List β) (t : List α) :
    es.foldl (fun acc e => acc.map (f e)) t
      = t.map (fun r => es.foldl (fun r e => f e r) r) := by
  induction es generalizing t with
  | nil => simp
  | cons e es ih =>
    simp only [List.foldl_cons]
    rw [ih, List.map_map]
    rfl

/-- Per-row form of the v2 Save Comments handler. -/
def v2RowFun (edits : List EditV2) (r : RowV2) : RowV2 :=
  v2Serialize (edits.foldl (fun r e => v2Step e r) (v2NormRow r))

theorem saveCommentsV2_eq_map (edits : List EditV2) (t : List RowV2) :
    saveCommentsV2 edits t = t.map (v2RowFun edits) := by
  rw [saveCommentsV2, foldl_map_comm, List.map_map, List.map_map]
  simp [Function.comp_def, v2RowFun]

/-- Per-row form of the v4 Save Comments handler. -/
def v4RowFun (edits : List EditV4) (r : RowV4) : SavedRowV4 :=
  RowV4.toSaved (edits.foldl (fun r e => v4Step e r) (v4NormRow r))

theorem saveCommentsV4_eq_map (edits : List EditV4) (t : List RowV4) :
    saveCommentsV4 edits t = t.map (v4RowFun edits) := by
  rw [saveCommentsV4, foldl_map_comm, List.map_map, List.map_map]
  simp [Function.comp_def, v4RowFun]

/-- An edit step never touches the identity, probability or `rest` cells
of a v2 row. -/
theorem v2Step_frame (e : EditV2) (r : RowV2) :
    (v2Step e r).empId = r.empId ∧ (v2Step e r).date = r.date
      ∧ (v2Step e r).prob = r.prob ∧ (v2Step e r).rest = r.rest := by
  rw [v2Step]
  split <;> exact ⟨rfl, rfl, rfl, rfl⟩

/-- Folding all edits never touches the identity, probability or `rest`
cells of a v2 row. -/
theorem v2Steps_frame (edits : List EditV2) (r : RowV2) :
    (edits.foldl (fun r e => v2Step e r) r).empId = r.empId
      ∧ (edits.foldl (fun r e => v2Step e r) r).date = r.date
      ∧ (edits.foldl (fun r e => v2Step e r) r).prob = r.prob
      ∧ (edits.foldl (fun r e => v2Step e r) r).rest = r.rest := by
  induction edits generalizing r with
  | nil => exact ⟨rfl, rfl, rfl, rfl⟩
  | cons e es ih =>
    obtain ⟨h1, h2, h3, h4⟩ := ih (v2Step e r)
    obtain ⟨g1, g2, g3, g4⟩ := v2Step_frame e r
    rw [List.foldl_cons]
    exact ⟨h1.trans g1, h2.trans g2, h3.trans g3, h4.trans g4⟩

/-- A row matched by no edited row is left untouched by the v2 edit
loop. -/
theorem v2Steps_unmatched (edits : List EditV2) (r : RowV2)
    (h : ∀ e ∈ edits, matchV2 e r = false) :
    edits.foldl (fun r e => v2Step e r) r = r := by
  induction edits with
  | nil => rfl
  | cons e es ih =>
    rw [List.foldl_cons, v2Step, if_neg (by simp [h e (List.mem_cons_self e es)])]
    exact ih (fun x hx => h x (List.mem_cons_of_mem e hx))

/-- An edit step never touches the identity, `otherDisplay` or
`extraCols` cells of a v4 row. -/
theorem v4Step_frame (e : EditV4) (r : RowV4) :
    (v4Step e r).empId = r.empId ∧ (v4Step e r).date = r.date
      ∧ (v4Step e r).otherDisplay = r.otherDisplay
      ∧ (v4Step e r).extraCols = r.extraCols := by
  rw [v4Step]
  split <;> exact ⟨rfl, rfl, rfl, rfl⟩

/-- Folding all edits never touches the identity, `otherDisplay` or
`extraCols` cells of a v4 row. -/
theorem v4Steps_frame (edits : List EditV4) (r : RowV4) :
    (edits.foldl (fun r e => v4Step e r) r).empId = r.empId
      ∧ (edits.foldl (fun r e => v4Step e r) r).date = r.date
      ∧ (edits.foldl (fun r e => v4Step e r) r).otherDisplay = r.otherDisplay
      ∧ (edits.foldl (fun r e => v4Step e r) r).extraCols = r.extraCols := by
  induction edits generalizing r with
  | nil => exact ⟨rfl, rfl, rfl, rfl⟩
  | cons e es ih =>
    obtain ⟨h1, h2, h3, h4⟩ := ih (v4Step e r)
    obtain ⟨g1, g2, g3, g4⟩ := v4Step_frame e r
    rw [List.foldl_cons]
    exact ⟨h1.trans g1, h2.trans g2, h3.trans g3, h4.trans g4⟩

/-- A row matched by no edited row is left untouched by the v4 edit
loop. -/
theorem v4Steps_unmatched (edits : List EditV4) (r : RowV4)
    (h : ∀ e ∈ edits, matchV4 e r = false) :
    edits.foldl (fun r e => v4Step e r) r = r := by
  induction edits with
  | nil => rfl
  | cons e es ih =>
    rw [List.foldl_cons, v4Step, if_neg (by simp [h e (List.mem_cons_self e es)])]
    exact ih (fun x hx => h x (List.mem_cons_of_mem e hx))

/-- The v4 match mask only reads the identity cells. -/
theorem matchV4_congr (e : EditV4) (a b : RowV4)
    (h1 : a.empId = b.empId) (h2 : a.date = b.date) :
    matchV4 e a = matchV4 e b := by
  rw [matchV4, matchV4, h1, h2]

/-- The v2 match mask only reads the identity cells. -/
theorem matchV2_congr (e : EditV2) (a b : RowV2)
    (h1 : a.empId = b.empId) (h2 : a.date = b.date) :
    matchV2 e a = matchV2 e b := by
  rw [matchV2, matchV2, h1, h2]

/-- The v2 deletion mask is unchanged by the date normalization the
handler has already applied (datetime parsing is idempotent). -/
theorem delMatchV2_normRow (k : DelKey) (r : RowV2) :
    delMatchV2 k (v2NormRow r) = delMatchV2 k r := by
  rw [delMatchV2, delMatchV2, v2NormRow]
  simp only [normDT_idem]

/-- `getD` after `map`, at an in-range index (defaults are irrelevant). -/
theorem map_getD_lt {α β : Type} (f : α → β) (l : List α) (i : Nat)
    (da : α) (db : β) (h : i < l.length) :
    (l.map f).getD i db = f (l.getD i da) := by
  induction l generalizing i with
  | nil => simp at h
  | cons x xs ih =>
    cases i with
    | zero => rfl
    | succ n =>
      simp only [List.map_cons, List.getD_cons_succ]
      exact ih n (by simpa using h)

/-- Default v2 row used with `List.getD`. -/
def rowV2Default : RowV2 := ⟨"", "", "", "", "", []⟩

/-- Default v4 row used with `List.getD`. -/
def rowV4Default : RowV4 := ⟨"", "", "", "", "", [], []⟩

/-- Default saved v4 row used with `List.getD`. -/
def savedRowV4Default : SavedRowV4 := ⟨"", "", "", "", "", []⟩

theorem foldl_max_le (l : List Nat) (a w : Nat) :
    l.foldl Nat.max a ≤ w ↔ a ≤ w ∧ ∀ x ∈ l, x ≤ w := by
  induction l generalizing a with
  | nil => simp
  | cons x xs ih =>
    rw [List.foldl_cons, ih]
    constructor
    · rintro ⟨h1, h2⟩
      obtain ⟨ha, hx⟩ := Nat.max_le.mp h1
      refine ⟨ha, fun z hz => ?_⟩
      rcases List.mem_cons.mp hz with rfl | hz2
      · exact hx
      · exact h2 z hz2
    · rintro ⟨h1, h2⟩
      exact ⟨Nat.max_le.mpr ⟨h1, h2 x (List.mem_cons_self x xs)⟩,
        fun z hz => h2 z (List.mem_cons_of_mem x hz)⟩

theorem lt_foldl_max (l : List Nat) (a w : Nat) :
    w < l.foldl Nat.max a ↔ w < a ∨ ∃ x ∈ l, w < x := by
  rw [← Nat.not_le, foldl_max_le]
  push_neg
  constructor
  · intro h
    by_cases ha : a ≤ w
    · exact Or.inr (h ha)
    · exact Or.inl (Nat.not_le.mp ha)
  · rintro (h | ⟨x, hx, hxl⟩) ha
    · omega
    · exact ⟨x, hx, hxl⟩

theorem foldl_max_lt (l : List Nat) (a w : Nat) :
    l.foldl Nat.max a < w ↔ a < w ∧ ∀ x ∈ l, x < w := by
  induction l generalizing a with
  | nil => simp
  | cons x xs ih =>
    rw [List.foldl_cons, ih]
    constructor
    · rintro ⟨h1, h2⟩
      obtain ⟨ha, hx⟩ := Nat.max_lt.mp h1
      refine ⟨ha, fun z hz => ?_⟩
      rcases List.mem_cons.mp hz with rfl | hz2
      · exact hx
      · exact h2 z hz2
    · rintro ⟨h1, h2⟩
      exact ⟨Nat.max_lt.mpr ⟨h1, h2 x (List.mem_cons_self x xs)⟩,
        fun z hz => h2 z (List.mem_cons_of_mem x hz)⟩

theorem padRow_eq_self (w : Nat) (r : List String) (h : r.length = w) :
    padRow w r = r := by
  rw [padRow, h, Nat.sub_self, List.replicate_zero, List.append_nil]

theorem padRow_length (w : Nat) (r : List String) (h : r.length ≤ w) :
    (padRow w r).length = w := by
  rw [padRow, List.length_append, List.length_replicate]
  omega

/-- C1, counterexample: the claim is false for the v2 variant of the load
operation.  v2 strips trailing percent signs and then divides by 100
unconditionally, so the already-fractional cell "0.42" normalizes to
0.0042 rather than 0.42; and the empty cell raises in `astype("float")`,
aborting the whole load, instead of normalizing to 0.0. -/
theorem c1_v2_normalization_counterexample :
    (v2NormProb "0.42").map Dec.toRat = some (21 / 5000 : ℚ)
      ∧ ((21 / 5000 : ℚ) ≠ 42 / 100)
      ∧ v2NormProb "" = none := by
  refine ⟨?_, by norm_num, by decide⟩
  have h : v2NormProb "0.42" = some ⟨42, 4⟩ := by decide
  rw [h]
  simp only [Option.map_some', Option.some.injEq]
  norm_num [Dec.toRat]

/-- C1 (amended): the claimed normalization (strip percent sign, parse,
divide by 100 exactly when the value exceeds 1, missing becomes 0.0, with
"42", "42%", "0.42", "" giving 0.42, 0.42, 0.42, 0.0) holds for the v4
load; the v2 load instead divides by 100 unconditionally ("0.42" becomes
0.0042) and fails the whole load on a missing/unparseable cell. -/
theorem c1_normalization_per_variant :
    v4NormProbCell "42" = ⟨42, 2⟩
      ∧ v4NormProbCell "42%" = ⟨42, 2⟩
      ∧ v4NormProbCell "0.42" = ⟨42, 2⟩
      ∧ v4NormProbCell "" = ⟨0, 0⟩
      ∧ Dec.toRat ⟨42, 2⟩ = 42 / 100
      ∧ Dec.toRat ⟨0, 0⟩ = 0
      ∧ (v2NormProb "42").map Dec.toRat = some (42 / 100 : ℚ)
      ∧ (v2NormProb "42%").map Dec.toRat = some (42 / 100 : ℚ)
      ∧ (v2NormProb "0.42").map Dec.toRat = some (21 / 5000 : ℚ)
      ∧ v2NormProb "" = none := by
  have h42 : v2NormProb "42" = some ⟨42, 2⟩ := by decide
  have h42p : v2NormProb "42%" = some ⟨42, 2⟩ := by decide
  have hfrac : v2NormProb "0.42" = some ⟨42, 4⟩ := by decide
  refine ⟨by decide, by decide, by decide, by decide, ?_, ?_, ?_, ?_, ?_, by decide⟩
  · norm_num [Dec.toRat]
  · norm_num [Dec.toRat]
  · rw [h42]
    simp only [Option.map_some', Option.some.injEq]
    norm_num [Dec.toRat]
  · rw [h42p]
    simp only [Option.map_some', Option.some.injEq]
    norm_num [Dec.toRat]
  · rw [hfrac]
    simp only [Option.map_some', Option.some.injEq]
    norm_num [Dec.toRat]

/-- C10: the v4 probability pipeline is the identity on an
already-normalized numeric cell whose value lies in [0, 1]; the second
application of the pipeline (`dashboard_app_v4.py`, lines 119-122)
therefore returns the loaded column unchanged. -/
theorem c10_pipeline_idempotent (d : Dec)
    (_h0 : 0 ≤ d.toRat) (h1 : d.toRat ≤ 1) :
    v4NormAny (PCell.num d) = d := by
  have hb : d.gtOne ≠ true := fun hb =>
    absurd ((Dec.gtOne_iff d).mp hb) (not_lt.mpr h1)
  simp [v4NormAny, hb]

/-- Witness for C10 at the normalized value 0.42. -/
theorem c10_pipeline_idempotent_witness :
    v4NormAny (PCell.num ⟨42, 2⟩) = ⟨42, 2⟩ :=
  c10_pipeline_idempotent ⟨42, 2⟩
    ((Dec.nonneg_iff ⟨42, 2⟩).mpr (by decide))
    ((Dec.le_one_iff ⟨42, 2⟩).mpr (by decide))

/-- C3, counterexample: with no deletion checkbox set, both Delete
Selected handlers still perform a store read (the `get_sheet_data` call
precedes the emptiness check), so the operation does not perform "no
store I/O at all". -/
theorem c3_empty_delete_counterexample :
    (deleteSelectedV2 [⟨"E1", "2024-01-01 00:00:00", false⟩]
        [⟨"E1", "2024-01-01 00:00:00", "0.42", "", "", []⟩]).1 = [StoreOp.read]
      ∧ (deleteSelectedV4 [⟨"E1", "2024-01-01", false⟩]
        [⟨"E1", "2024-01-01", "", "", "", [], []⟩]).1 = [StoreOp.read]
      ∧ ([StoreOp.read] : List StoreOp) ≠ [] := by
  exact ⟨by decide, by decide, by decide⟩

/-- C3 (amended): when no displayed row has its deletion flag checked,
both Delete Selected handlers return the "nothing selected" notice and
perform no store write and leave the store unchanged — but they do first
read the authoritative table. -/
theorem c3_empty_delete_no_write :
    ∀ (edited : List CheckRow) (storeA : List RowV2) (storeB : List RowV4),
      (∀ r ∈ edited, r.del = false) →
      deleteSelectedV2 edited storeA
          = ([StoreOp.read], storeA, "No rows selected for deletion")
        ∧ deleteSelectedV4 edited storeB
          = ([StoreOp.read], storeB, "No rows selected for deletion")
        ∧ StoreOp.write ∉ (deleteSelectedV2 edited storeA).1
        ∧ StoreOp.write ∉ (deleteSelectedV4 edited storeB).1 := by
  intro edited sa sb h
  have he : edited.filter (fun r => r.del) = [] :=
    List.filter_eq_nil_iff.mpr (fun r hr => by simp [h r hr])
  refine ⟨?_, ?_, ?_, ?_⟩
  · simp [deleteSelectedV2, he]
  · simp [deleteSelectedV4, he]
  · simp [deleteSelectedV2, he]
  · simp [deleteSelectedV4, he]

/-- Witness for C3 (amended) at a concrete unchecked projection. -/
theorem c3_empty_delete_no_write_witness :
    deleteSelectedV2 [⟨"E1", "2024-01-01 00:00:00", false⟩, ⟨"E2", "2024-01-02 00:00:00", false⟩]
        [⟨"E1", "2024-01-01 00:00:00", "0.42", "", "", []⟩]
        = ([StoreOp.read], [⟨"E1", "2024-01-01 00:00:00", "0.42", "", "", []⟩],
           "No rows selected for deletion")
      ∧ deleteSelectedV4 [⟨"E1", "2024-01-01 00:00:00", false⟩, ⟨"E2", "2024-01-02 00:00:00", false⟩]
        [⟨"E1", "2024-01-01 00:00:00", "", "", "", [], []⟩]
        = ([StoreOp.read], [⟨"E1", "2024-01-01 00:00:00", "", "", "", [], []⟩],
           "No rows selected for deletion")
      ∧ StoreOp.write ∉ (deleteSelectedV2
          [⟨"E1", "2024-01-01 00:00:00", false⟩, ⟨"E2", "2024-01-02 00:00:00", false⟩]
          [⟨"E1", "2024-01-01 00:00:00", "0.42", "", "", []⟩]).1
      ∧ StoreOp.write ∉ (deleteSelectedV4
          [⟨"E1", "2024-01-01 00:00:00", false⟩, ⟨"E2", "2024-01-02 00:00:00", false⟩]
          [⟨"E1", "2024-01-01 00:00:00", "", "", "", [], []⟩]).1 :=
  c3_empty_delete_no_write
    [⟨"E1", "2024-01-01 00:00:00", false⟩, ⟨"E2", "2024-01-02 00:00:00", false⟩]
    [⟨"E1", "2024-01-01 00:00:00", "0.42", "", "", []⟩]
    [⟨"E1", "2024-01-01 00:00:00", "", "", "", [], []⟩]
    (by decide)

/-- C9, counterexample: on a ragged store a row wider than the header is
truncated by the v2 load, so the no-edit round trip drops the cell "b";
the result is not content-equivalent to the original store under any row
order (a whole row present before the call is gone afterwards). -/
theorem c9_roundtrip_counterexample :
    roundTripV2 [["h"], ["a", "b"]] = [["h"], ["a"]]
      ∧ ["a", "b"] ∈ [["h"], ["a", "b"]]
      ∧ ["a", "b"] ∉ roundTripV2 [["h"], ["a", "b"]] := by
  exact ⟨by decide, by decide, by decide⟩

/-- C9 (amended): for every non-empty store whose rows all have exactly
header width (the shape the application itself writes), saving the table
returned by an immediately preceding load reproduces the store contents
exactly — in particular content-equivalently; ragged rows are instead
normalized by the load (padded or truncated), which can change or lose
content. -/
theorem c9_roundtrip_identity :
    ∀ (hdr : List String) (body : List (List String)),
      (∀ r ∈ body, r.length = hdr.length) →
      roundTripV2 (hdr :: body) = hdr :: body := by
  intro hdr body h
  have hle : ((hdr :: body).map List.length).foldl Nat.max 0 ≤ hdr.length := by
    rw [foldl_max_le]
    refine ⟨Nat.zero_le _, ?_⟩
    intro x hx
    rcases List.mem_map.mp hx with ⟨r, hr, rfl⟩
    rcases List.mem_cons.mp hr with rfl | hr2
    · exact le_rfl
    · exact (h r hr2).le
  have hwarn :
      decide (hdr.length < ((hdr :: body).map List.length).foldl Nat.max 0) = false :=
    decide_eq_false (Nat.not_lt.mpr hle)
  rw [roundTripV2, getSheetDataV2]
  simp only [hwarn, Bool.false_eq_true, if_false]
  rw [padRow_eq_self hdr.length hdr rfl]
  have hb : body.map (fun r => padRow hdr.length r) = body := by
    rw [List.map_congr_left (fun r hr => padRow_eq_self hdr.length r (h r hr))]
    simp
  rw [hb]
  rfl

/-- Witness for C9 (amended) at a concrete two-column store. -/
theorem c9_roundtrip_identity_witness :
    roundTripV2 [["h", "i"], ["a", "b"], ["c", "d"]] = [["h", "i"], ["a", "b"], ["c", "d"]] :=
  c9_roundtrip_identity ["h", "i"] [["a", "b"], ["c", "d"]] (by decide)

/-- A `getD` element at an in-range index is a member of the list. -/
theorem getD_mem_of_lt {α : Type} (l : List α) (i : Nat) (d : α) (h : i < l.length) :
    l.getD i d ∈ l := by
  induction l generalizing i with
  | nil => simp at h
  | cons x xs ih =>
    cases i with
    | zero => exact List.mem_cons_self x xs
    | succ n =>
      rw [List.getD_cons_succ]
      exact List.mem_cons_of_mem x (ih n (by simpa using h))

/-- Unfolding of the v2 sheet load on a non-empty value list. -/
theorem getSheetDataV2_cons (hdr : List String) (body : List (List String)) :
    getSheetDataV2 (hdr :: body)
      = ⟨padRow hdr.length
            (if decide (hdr.length < ((hdr :: body).map List.length).foldl Nat.max 0)
             then hdr.take hdr.length else hdr),
         body.map (fun r =>
           padRow hdr.length
             (if decide (hdr.length < ((hdr :: body).map List.length).foldl Nat.max 0)
              then r.take hdr.length else r)),
         decide (hdr.length < ((hdr :: body).map List.length).foldl Nat.max 0)⟩ := rfl

/-- The truncation warning fires exactly when some raw row is wider than
the header. -/
theorem getSheetDataV2_warn_iff (hdr : List String) (body : List (List String)) :
    (decide (hdr.length < ((hdr :: body).map List.length).foldl Nat.max 0) = true)
      ↔ ∃ r ∈ hdr :: body, hdr.length < r.length := by
  rw [decide_eq_true_iff, lt_foldl_max]
  constructor
  · rintro (h0 | ⟨x, hx, hlt⟩)
    · exact absurd h0 (Nat.not_lt_zero _)
    · rcases List.mem_map.mp hx with ⟨r, hr, rfl⟩
      exact ⟨r, hr, hlt⟩
  · rintro ⟨r, hr, hlt⟩
    exact Or.inr ⟨r.length, List.mem_map.mpr ⟨r, hr, rfl⟩, hlt⟩

/-- Failure characterization of the v1 sheet load on a non-empty data
list: the `pd.DataFrame` constructor fails exactly when some data row is
wider than the header or every data row is narrower than it (the
inferred data width differs from the header width either way). -/
theorem getSheetDataV1_none_iff (hdr : List String) (b : List String)
    (bs : List (List String)) :
    getSheetDataV1 (hdr :: b :: bs) = none
      ↔ (∃ r ∈ b :: bs, hdr.length < r.length)
        ∨ ∀ r ∈ b :: bs, r.length < hdr.length := by
  have hmain : ((b :: bs).map List.length).foldl Nat.max 0 ≠ hdr.length
      ↔ (∃ r ∈ b :: bs, hdr.length < r.length)
        ∨ ∀ r ∈ b :: bs, r.length < hdr.length := by
    constructor
    · intro hne
      rcases Nat.lt_or_ge (((b :: bs).map List.length).foldl Nat.max 0) hdr.length with
        hlt | hge
      · refine Or.inr fun r hr => ?_
        exact ((foldl_max_lt _ 0 hdr.length).mp hlt).2 r.length
          (List.mem_map.mpr ⟨r, hr, rfl⟩)
      · have hgt : hdr.length < ((b :: bs).map List.length).foldl Nat.max 0 :=
          Nat.lt_of_le_of_ne hge fun he => hne he.symm
        rcases (lt_foldl_max _ 0 hdr.length).mp hgt with h0 | ⟨x, hx, hxl⟩
        · exact absurd h0 (Nat.not_lt_zero _)
        · rcases List.mem_map.mp hx with ⟨r, hr, rfl⟩
          exact Or.inl ⟨r, hr, hxl⟩
    · rintro (⟨r, hr, hlt⟩ | hall)
      · exact Nat.ne_of_gt ((lt_foldl_max _ 0 hdr.length).mpr
          (Or.inr ⟨r.length, List.mem_map.mpr ⟨r, hr, rfl⟩, hlt⟩))
      · refine Nat.ne_of_lt ((foldl_max_lt _ 0 hdr.length).mpr ⟨?_, ?_⟩)
        · exact Nat.lt_of_le_of_lt (Nat.zero_le _) (hall b (List.mem_cons_self b bs))
        · intro x hx
          rcases List.mem_map.mp hx with ⟨r, hr, rfl⟩
          exact hall r hr
  by_cases hcond : ((b :: bs).map List.length).foldl Nat.max 0 = hdr.length
  · simp only [getSheetDataV1, if_pos hcond]
    constructor
    · intro h
      exact absurd h (Option.some_ne_none _)
    · intro h
      exact absurd hcond (hmain.mpr h)
  · simp only [getSheetDataV1, if_neg hcond]
    exact ⟨fun _ => hmain.mp hcond, fun _ => trivial⟩

/-- C7, counterexample: the v1 backend (`google_sheets_utils.py`) does
not normalize ragged rows — a data row wider than the header makes the
whole load fail, and so does a table whose rows are all narrower than
the header (an error in both directions, not a warning), while the v2
backend truncates the former with the warning and pads the latter with
empty strings. -/
theorem c7_v1_backend_counterexample :
    getSheetDataV1 [["h"], ["a", "b"]] = none
      ∧ getSheetDataV1 [["h", "i"], ["a"]] = none
      ∧ getSheetDataV2 [["h"], ["a", "b"]] = ⟨["h"], [["a"]], true⟩
      ∧ getSheetDataV2 [["h", "i"], ["a"]] = ⟨["h", "i"], [["a", ""]], false⟩ := by
  exact ⟨by decide, by decide, by decide, by decide⟩

/-- C7 (amended): the v2 backend normalizes every raw row to exactly
header width — shorter rows are padded with empty-string cells, longer
rows are truncated to header width, and the truncation warning fires
exactly when some row is wider than the header.  The v1 backend does
not: with a non-empty data list it fails the whole load exactly when the
inferred data width (the widest data row) differs from the header width
— some row wider than the header, or every row narrower than it — and
when the widest row has exactly header width it pads narrower rows with
a missing-value sentinel rather than empty strings. -/
theorem c7_ragged_row_normalization :
    ∀ (hdr : List String) (body : List (List String)),
      (∀ r ∈ (getSheetDataV2 (hdr :: body)).rows, r.length = hdr.length)
      ∧ (getSheetDataV2 (hdr :: body)).rows.length = body.length
      ∧ (∀ i, i < body.length → (body.getD i []).length ≤ hdr.length →
          (getSheetDataV2 (hdr :: body)).rows.getD i []
            = body.getD i []
              ++ List.replicate (hdr.length - (body.getD i []).length) "")
      ∧ (∀ i, i < body.length → hdr.length < (body.getD i []).length →
          (getSheetDataV2 (hdr :: body)).rows.getD i []
              = (body.getD i []).take hdr.length
            ∧ (getSheetDataV2 (hdr :: body)).truncWarn = true)
      ∧ ((getSheetDataV2 (hdr :: body)).truncWarn = true
          ↔ ∃ r ∈ hdr :: body, hdr.length < r.length)
      ∧ (getSheetDataV1 (hdr :: body) = none
          ↔ body ≠ []
            ∧ ((∃ r ∈ body, hdr.length < r.length)
              ∨ ∀ r ∈ body, r.length < hdr.length))
      ∧ ((body.map List.length).foldl Nat.max 0 = hdr.length →
          getSheetDataV1 (hdr :: body)
            = some (hdr, body.map (fun r =>
                r.map some ++ List.replicate (hdr.length - r.length) none))) := by
  intro hdr body
  refine ⟨?_, ?_, ?_, ?_, ?_, ?_, ?_⟩
  · intro r hr
    rw [getSheetDataV2_cons] at hr
    rcases List.mem_map.mp hr with ⟨r0, hr0, rfl⟩
    cases hdec : decide (hdr.length < ((hdr :: body).map List.length).foldl Nat.max 0) with
    | true =>
      simp only [hdec, if_true]
      exact padRow_length hdr.length (r0.take hdr.length)
        (le_of_eq_of_le (List.length_take _ _) (Nat.min_le_left _ _))
    | false =>
      simp only [hdec, Bool.false_eq_true, if_false]
      have hmax : ((hdr :: body).map List.length).foldl Nat.max 0 ≤ hdr.length :=
        Nat.not_lt.mp (by simpa using hdec)
      have hall := (foldl_max_le _ 0 hdr.length).mp hmax
      exact padRow_length hdr.length r0
        (hall.2 r0.length (List.mem_map.mpr ⟨r0, List.mem_cons_of_mem hdr hr0, rfl⟩))
  · rw [getSheetDataV2_cons]
    exact List.length_map body _
  · intro i hi hle
    rw [getSheetDataV2_cons]
    rw [map_getD_lt _ body i [] [] hi]
    cases hdec : decide (hdr.length < ((hdr :: body).map List.length).foldl Nat.max 0) with
    | true =>
      simp only [hdec, if_true]
      rw [List.take_of_length_le hle]
      rfl
    | false =>
      simp only [hdec, Bool.false_eq_true, if_false]
      rfl
  · intro i hi hgt
    have hmem : body.getD i [] ∈ hdr :: body :=
      List.mem_cons_of_mem hdr (getD_mem_of_lt body i [] hi)
    have hdec : decide (hdr.length < ((hdr :: body).map List.length).foldl Nat.max 0) = true :=
      (getSheetDataV2_warn_iff hdr body).mpr ⟨body.getD i [], hmem, hgt⟩
    constructor
    · rw [getSheetDataV2_cons]
      rw [map_getD_lt _ body i [] [] hi]
      simp only [hdec, if_true]
      exact padRow_eq_self hdr.length _
        ((List.length_take _ _).trans (Nat.min_eq_left (Nat.le_of_lt hgt)))
    · rw [getSheetDataV2_cons]
      exact hdec
  · rw [getSheetDataV2_cons]
    exact getSheetDataV2_warn_iff hdr body
  · cases body with
    | nil =>
      constructor
      · intro h
        rw [getSheetDataV1] at h
        exact absurd h (Option.some_ne_none _)
      · rintro ⟨hne, _⟩
        exact absurd rfl hne
    | cons b bs =>
      rw [getSheetDataV1_none_iff]
      exact ⟨fun h => ⟨List.cons_ne_nil b bs, h⟩, And.right⟩
  · intro hw
    cases body with
    | nil =>
      rw [getSheetDataV1, List.map_nil]
    | cons b bs =>
      simp only [getSheetDataV1, if_pos hw]

/-- Witness for C7 (amended) on concrete ragged value lists: one short
row is padded, one long row is truncated with the warning; the v1
backend's failure characterization holds at the same input, and it
succeeds with NaN padding when the widest data row has exactly header
width. -/
theorem c7_ragged_row_normalization_witness :
    (getSheetDataV2 [["h", "i"], ["a"], ["x", "y", "z"]]).rows.getD 0 []
        = ["a"] ++ List.replicate 1 ""
      ∧ ((getSheetDataV2 [["h", "i"], ["a"], ["x", "y", "z"]]).rows.getD 1 []
            = ["x", "y", "z"].take 2
          ∧ (getSheetDataV2 [["h", "i"], ["a"], ["x", "y", "z"]]).truncWarn = true)
      ∧ (getSheetDataV1 [["h", "i"], ["a"], ["x", "y", "z"]] = none
          ↔ [["a"], ["x", "y", "z"]] ≠ []
            ∧ ((∃ r ∈ [["a"], ["x", "y", "z"]], ([("h" : String), "i"]).length < r.length)
              ∨ ∀ r ∈ [["a"], ["x", "y", "z"]], r.length < ([("h" : String), "i"]).length))
      ∧ getSheetDataV1 [["h", "i"], ["a"], ["x", "y"]]
          = some (["h", "i"], [["a"], ["x", "y"]].map (fun r =>
              r.map some
                ++ List.replicate (([("h" : String), "i"]).length - r.length) none)) :=
  ⟨(c7_ragged_row_normalization ["h", "i"] [["a"], ["x", "y", "z"]]).2.2.1 0
      (by decide) (by decide),
    (c7_ragged_row_normalization ["h", "i"] [["a"], ["x", "y", "z"]]).2.2.2.1 1
      (by decide) (by decide),
    (c7_ragged_row_normalization ["h", "i"] [["a"], ["x", "y", "z"]]).2.2.2.2.2.1,
    (c7_ragged_row_normalization ["h", "i"] [["a"], ["x", "y"]]).2.2.2.2.2.2 (by decide)⟩

/-- Pointwise implication of row masks gives filtered-result inclusion. -/
theorem filter_subset_of_imp {α : Type} (p q : α → Bool) (t : List α)
    (h : ∀ r, p r = true → q r = true) : t.filter p ⊆ t.filter q := by
  intro x hx
  rw [List.mem_filter] at hx ⊢
  exact ⟨hx.1, h x hx.2⟩

/-- C8: filtering is conjunctive — a row is in the filtered result iff it
is in the table and passes every active filter independently — and
deactivating any one filter (each optional filter set to `none`, or the
date range widened) yields a superset of the filtered result. -/
theorem c8_filters_conjunctive_monotone :
    (∀ (f : Filters) (t : List CRow) (r : CRow),
      r ∈ applyFilters f t
        ↔ r ∈ t ∧ passDate f r = true ∧ passRisk f r = true
            ∧ passCC f r = true ∧ passTenure f r = true ∧ passProb f r = true)
    ∧ (∀ (f : Filters) (t : List CRow),
        applyFilters f t ⊆ applyFilters { f with riskSet := none } t
        ∧ applyFilters f t ⊆ applyFilters { f with cc := none } t
        ∧ applyFilters f t ⊆ applyFilters { f with tenure := none } t
        ∧ applyFilters f t ⊆ applyFilters { f with minProb := none } t)
    ∧ (∀ (f : Filters) (t : List CRow) (lo hi : Int),
        lo ≤ f.startDay → f.endDay ≤ hi →
        applyFilters f t ⊆ applyFilters { f with startDay := lo, endDay := hi } t) := by
  refine ⟨?_, ?_, ?_⟩
  · intro f t r
    rw [applyFilters, List.mem_filter, rowPass]
    simp only [Bool.and_eq_true]
    tauto
  · intro f t
    refine ⟨?_, ?_, ?_, ?_⟩ <;>
      refine filter_subset_of_imp _ _ t ?_ <;>
        intro r h <;>
          simp only [rowPass, Bool.and_eq_true] at h ⊢ <;>
            refine ⟨⟨⟨⟨h.1.1.1.1, ?_⟩, ?_⟩, ?_⟩, ?_⟩
    · rfl
    · exact h.1.1.2
    · exact h.1.2
    · exact h.2
    · exact h.1.1.1.2
    · rfl
    · exact h.1.2
    · exact h.2
    · exact h.1.1.1.2
    · exact h.1.1.2
    · rfl
    · exact h.2
    · exact h.1.1.1.2
    · exact h.1.1.2
    · exact h.1.2
    · rfl
  · intro f t lo hi hlo hhi
    refine filter_subset_of_imp _ _ t ?_
    intro r h
    simp only [rowPass, Bool.and_eq_true] at h ⊢
    obtain ⟨⟨⟨⟨hd, h2⟩, h3⟩, h4⟩, h5⟩ := h
    refine ⟨⟨⟨⟨?_, h2⟩, h3⟩, h4⟩, h5⟩
    simp only [passDate, Bool.and_eq_true, decide_eq_true_eq] at hd ⊢
    exact ⟨le_trans hlo hd.1, le_trans hd.2 hhi⟩

/-- Witness for C8 at a concrete filter state and table: widening the
date range keeps the filtered row. -/
theorem c8_filters_witness :
    applyFilters ⟨0, 10, none, none, none, none⟩
        [⟨"E1", 5, 1, "Severe", "CC1", "T1"⟩]
      ⊆ applyFilters ⟨-1, 11, none, none, none, none⟩
        [⟨"E1", 5, 1, "Severe", "CC1", "T1"⟩] :=
  c8_filters_conjunctive_monotone.2.2 ⟨0, 10, none, none, none, none⟩
    [⟨"E1", 5, 1, "Severe", "CC1", "T1"⟩] (-1) 11 (by norm_num) (by norm_num)

/-- C2, counterexample: the save operation is not representation-
preserving outside the comment fields.  With no edited rows at all, the
v2 handler still rewrites every row's probability cell as a percentage
string ("0.42" becomes "42.00%"), and the v4 handler drops the
authoritative columns outside `save_cols` (the cell "EXTRA" is gone from
the written table) — so fields other than the comment fields of matched
rows are re-serialized changed. -/
theorem c2_save_counterexample :
    saveCommentsV2 [] [⟨"E1", "2024-01-01 10:00:00", "0.42", "", "", ["keep"]⟩]
        = [⟨"E1", "2024-01-01 10:00:00", "42.00%", "", "", ["keep"]⟩]
      ∧ saveCommentsV2 [] [⟨"E1", "2024-01-01 10:00:00", "0.42", "", "", ["keep"]⟩]
        ≠ [⟨"E1", "2024-01-01 10:00:00", "0.42", "", "", ["keep"]⟩]
      ∧ saveCommentsV4 [] [⟨"E1", "2024-01-01", "h", "o", "Yes", ["x"], ["EXTRA"]⟩]
        = [⟨"E1", "2024-01-01", "h", "o", "Yes", ["x"]⟩] := by
  exact ⟨by decide, by decide, by decide⟩

/-- C2 (amended): the save operation changes the comment fields (and in
v4 the regrettable flag) of matched rows only, up to a uniform
re-serialization applied to every row: v2 rewrites every date cell
through datetime normalization and every probability cell through the
percentage formatter, v4 rewrites every date cell to its date portion and
restricts the written table to the display columns; rows matched by no
edited row keep their comment fields, and every other modelled field of
every row is carried over unchanged. -/
theorem c2_save_frame :
    (∀ (edits : List EditV2) (t : List RowV2) (i : Nat), i < t.length →
      (saveCommentsV2 edits t).length = t.length
      ∧ ((saveCommentsV2 edits t).getD i rowV2Default).empId
          = (t.getD i rowV2Default).empId
      ∧ ((saveCommentsV2 edits t).getD i rowV2Default).rest
          = (t.getD i rowV2Default).rest
      ∧ ((saveCommentsV2 edits t).getD i rowV2Default).date
          = normDT (t.getD i rowV2Default).date
      ∧ ((saveCommentsV2 edits t).getD i rowV2Default).prob
          = v2SaveProbCell (t.getD i rowV2Default).prob
      ∧ ((∀ e ∈ edits, matchV2 e (v2NormRow (t.getD i rowV2Default)) = false) →
          ((saveCommentsV2 edits t).getD i rowV2Default).hr
              = (t.getD i rowV2Default).hr
            ∧ ((saveCommentsV2 edits t).getD i rowV2Default).ops
              = (t.getD i rowV2Default).ops))
    ∧ (∀ (edits : List EditV4) (t : List RowV4) (i : Nat), i < t.length →
      (saveCommentsV4 edits t).length = t.length
      ∧ ((saveCommentsV4 edits t).getD i savedRowV4Default).empId
          = (t.getD i rowV4Default).empId
      ∧ ((saveCommentsV4 edits t).getD i savedRowV4Default).otherDisplay
          = (t.getD i rowV4Default).otherDisplay
      ∧ ((saveCommentsV4 edits t).getD i savedRowV4Default).date
          = dateOnly (t.getD i rowV4Default).date
      ∧ ((∀ e ∈ edits, matchV4 e (v4NormRow (t.getD i rowV4Default)) = false) →
          ((saveCommentsV4 edits t).getD i savedRowV4Default).hr
              = (t.getD i rowV4Default).hr
            ∧ ((saveCommentsV4 edits t).getD i savedRowV4Default).ops
              = (t.getD i rowV4Default).ops
            ∧ ((saveCommentsV4 edits t).getD i savedRowV4Default).regret
              = (t.getD i rowV4Default).regret)) := by
  constructor
  · intro edits t i hi
    have hmap := saveCommentsV2_eq_map edits t
    have hget : (saveCommentsV2 edits t).getD i rowV2Default
        = v2RowFun edits (t.getD i rowV2Default) := by
      rw [hmap, map_getD_lt (v2RowFun edits) t i rowV2Default rowV2Default hi]
    obtain ⟨hfe, hfd, hfp, hfr⟩ :=
      v2Steps_frame edits (v2NormRow (t.getD i rowV2Default))
    refine ⟨by rw [hmap, List.length_map], ?_, ?_, ?_, ?_, ?_⟩
    · rw [hget]; exact hfe
    · rw [hget]; exact hfr
    · rw [hget]; exact hfd
    · rw [hget]
      show v2SaveProbCell
          ((edits.foldl (fun r e => v2Step e r) (v2NormRow (t.getD i rowV2Default))).prob)
        = v2SaveProbCell (t.getD i rowV2Default).prob
      rw [hfp]
      rfl
    · intro hun
      rw [hget, v2RowFun, v2Steps_unmatched edits _ hun]
      exact ⟨rfl, rfl⟩
  · intro edits t i hi
    have hmap := saveCommentsV4_eq_map edits t
    have hget : (saveCommentsV4 edits t).getD i savedRowV4Default
        = v4RowFun edits (t.getD i rowV4Default) := by
      rw [hmap, map_getD_lt (v4RowFun edits) t i rowV4Default savedRowV4Default hi]
    obtain ⟨hfe, hfd, hfo, hfx⟩ :=
      v4Steps_frame edits (v4NormRow (t.getD i rowV4Default))
    refine ⟨by rw [hmap, List.length_map], ?_, ?_, ?_, ?_⟩
    · rw [hget]; exact hfe
    · rw [hget]; exact hfo
    · rw [hget]; exact hfd
    · intro hun
      rw [hget, v4RowFun, v4Steps_unmatched edits _ hun]
      exact ⟨rfl, rfl, rfl⟩

/-- Witness for C2 (amended), applying the frame theorem to concrete v2
and v4 tables with one edited row that matches nothing. -/
theorem c2_save_frame_witness :
    ((saveCommentsV2 [⟨"E9", "2024-02-02 00:00:00", "new", "new"⟩]
          [⟨"E1", "2024-01-01 10:00:00", "0.42", "h", "o", ["keep"]⟩]).length = 1
      ∧ ((saveCommentsV2 [⟨"E9", "2024-02-02 00:00:00", "new", "new"⟩]
          [⟨"E1", "2024-01-01 10:00:00", "0.42", "h", "o", ["keep"]⟩]).getD 0
            rowV2Default).empId
        = (([⟨"E1", "2024-01-01 10:00:00", "0.42", "h", "o", ["keep"]⟩] :
            List RowV2).getD 0 rowV2Default).empId
      ∧ ((saveCommentsV2 [⟨"E9", "2024-02-02 00:00:00", "new", "new"⟩]
          [⟨"E1", "2024-01-01 10:00:00", "0.42", "h", "o", ["keep"]⟩]).getD 0
            rowV2Default).rest
        = (([⟨"E1", "2024-01-01 10:00:00", "0.42", "h", "o", ["keep"]⟩] :
            List RowV2).getD 0 rowV2Default).rest
      ∧ ((saveCommentsV2 [⟨"E9", "2024-02-02 00:00:00", "new", "new"⟩]
          [⟨"E1", "2024-01-01 10:00:00", "0.42", "h", "o", ["keep"]⟩]).getD 0
            rowV2Default).date
        = normDT (([⟨"E1", "2024-01-01 10:00:00", "0.42", "h", "o", ["keep"]⟩] :
            List RowV2).getD 0 rowV2Default).date
      ∧ ((saveCommentsV2 [⟨"E9", "2024-02-02 00:00:00", "new", "new"⟩]
          [⟨"E1", "2024-01-01 10:00:00", "0.42", "h", "o", ["keep"]⟩]).getD 0
            rowV2Default).prob
        = v2SaveProbCell (([⟨"E1", "2024-01-01 10:00:00", "0.42", "h", "o", ["keep"]⟩] :
            List RowV2).getD 0 rowV2Default).prob
      ∧ ((∀ e ∈ [(⟨"E9", "2024-02-02 00:00:00", "new", "new"⟩ : EditV2)],
            matchV2 e (v2NormRow (([⟨"E1", "2024-01-01 10:00:00", "0.42", "h", "o", ["keep"]⟩] :
              List RowV2).getD 0 rowV2Default)) = false) →
          ((saveCommentsV2 [⟨"E9", "2024-02-02 00:00:00", "new", "new"⟩]
            [⟨"E1", "2024-01-01 10:00:00", "0.42", "h", "o", ["keep"]⟩]).getD 0
              rowV2Default).hr
            = (([⟨"E1", "2024-01-01 10:00:00", "0.42", "h", "o", ["keep"]⟩] :
                List RowV2).getD 0 rowV2Default).hr
          ∧ ((saveCommentsV2 [⟨"E9", "2024-02-02 00:00:00", "new", "new"⟩]
            [⟨"E1", "2024-01-01 10:00:00", "0.42", "h", "o", ["keep"]⟩]).getD 0
              rowV2Default).ops
            = (([⟨"E1", "2024-01-01 10:00:00", "0.42", "h", "o", ["keep"]⟩] :
                List RowV2).getD 0 rowV2Default).ops))
    ∧ ((saveCommentsV4 [⟨"E9", "2024-02-02", "nh", "no", "No"⟩]
          [⟨"E1", "2024-01-01 10:00:00", "h", "o", "Yes", ["x"], ["EXTRA"]⟩]).length = 1
      ∧ ((saveCommentsV4 [⟨"E9", "2024-02-02", "nh", "no", "No"⟩]
          [⟨"E1", "2024-01-01 10:00:00", "h", "o", "Yes", ["x"], ["EXTRA"]⟩]).getD 0
            savedRowV4Default).empId
        = (([⟨"E1", "2024-01-01 10:00:00", "h", "o", "Yes", ["x"], ["EXTRA"]⟩] :
            List RowV4).getD 0 rowV4Default).empId
      ∧ ((saveCommentsV4 [⟨"E9", "2024-02-02", "nh", "no", "No"⟩]
          [⟨"E1", "2024-01-01 10:00:00", "h", "o", "Yes", ["x"], ["EXTRA"]⟩]).getD 0
            savedRowV4Default).otherDisplay
        = (([⟨"E1", "2024-01-01 10:00:00", "h", "o", "Yes", ["x"], ["EXTRA"]⟩] :
            List RowV4).getD 0 rowV4Default).otherDisplay
      ∧ ((saveCommentsV4 [⟨"E9", "2024-02-02", "nh", "no", "No"⟩]
          [⟨"E1", "2024-01-01 10:00:00", "h", "o", "Yes", ["x"], ["EXTRA"]⟩]).getD 0
            savedRowV4Default).date
        = dateOnly (([⟨"E1", "2024-01-01 10:00:00", "h", "o", "Yes", ["x"], ["EXTRA"]⟩] :
            List RowV4).getD 0 rowV4Default).date
      ∧ ((∀ e ∈ [(⟨"E9", "2024-02-02", "nh", "no", "No"⟩ : EditV4)],
            matchV4 e (v4NormRow (([⟨"E1", "2024-01-01 10:00:00", "h", "o", "Yes", ["x"], ["EXTRA"]⟩] :
              List RowV4).getD 0 rowV4Default)) = false) →
          ((saveCommentsV4 [⟨"E9", "2024-02-02", "nh", "no", "No"⟩]
            [⟨"E1", "2024-01-01 10:00:00", "h", "o", "Yes", ["x"], ["EXTRA"]⟩]).getD 0
              savedRowV4Default).hr
            = (([⟨"E1", "2024-01-01 10:00:00", "h", "o", "Yes", ["x"], ["EXTRA"]⟩] :
                List RowV4).getD 0 rowV4Default).hr
          ∧ ((saveCommentsV4 [⟨"E9", "2024-02-02", "nh", "no", "No"⟩]
            [⟨"E1", "2024-01-01 10:00:00", "h", "o", "Yes", ["x"], ["EXTRA"]⟩]).getD 0
              savedRowV4Default).ops
            = (([⟨"E1", "2024-01-01 10:00:00", "h", "o", "Yes", ["x"], ["EXTRA"]⟩] :
                List RowV4).getD 0 rowV4Default).ops
          ∧ ((saveCommentsV4 [⟨"E9", "2024-02-02", "nh", "no", "No"⟩]
            [⟨"E1", "2024-01-01 10:00:00", "h", "o", "Yes", ["x"], ["EXTRA"]⟩]).getD 0
              savedRowV4Default).regret
            = (([⟨"E1", "2024-01-01 10:00:00", "h", "o", "Yes", ["x"], ["EXTRA"]⟩] :
                List RowV4).getD 0 rowV4Default).regret)) :=
  ⟨c2_save_frame.1 [⟨"E9", "2024-02-02 00:00:00", "new", "new"⟩]
      [⟨"E1", "2024-01-01 10:00:00", "0.42", "h", "o", ["keep"]⟩] 0 (by decide),
    c2_save_frame.2 [⟨"E9", "2024-02-02", "nh", "no", "No"⟩]
      [⟨"E1", "2024-01-01 10:00:00", "h", "o", "Yes", ["x"], ["EXTRA"]⟩] 0 (by decide)⟩

/-- C4: an edited row whose composite identity (EmployeeID, normalized
ReportDate) matches no row of the re-read authoritative table has no
effect at all on either variant's save: the written table (and hence
every row of it) is exactly what it would be without that edited row, no
per-row mismatch is reported (the results are identical), and both
handlers still finish with the success notification. -/
theorem c4_unmatched_edit_noop :
    (∀ (edits : List EditV2) (e : EditV2) (t : List RowV2),
      (∀ r ∈ t, matchV2 e (v2NormRow r) = false) →
      saveCommentsV2Run (edits ++ [e]) t = saveCommentsV2Run edits t
        ∧ (saveCommentsV2Run (edits ++ [e]) t).message
            = "Comments saved successfully!")
    ∧ (∀ (edits : List EditV4) (e : EditV4) (t : List RowV4),
      (∀ r ∈ t, matchV4 e (v4NormRow r) = false) →
      saveCommentsV4Run (edits ++ [e]) t = saveCommentsV4Run edits t
        ∧ (saveCommentsV4Run (edits ++ [e]) t).message
            = "Comments saved successfully!") := by
  constructor
  · intro edits e t h
    have htab : saveCommentsV2 (edits ++ [e]) t = saveCommentsV2 edits t := by
      rw [saveCommentsV2_eq_map, saveCommentsV2_eq_map]
      refine List.map_congr_left ?_
      intro r hr
      rw [v2RowFun, v2RowFun, List.foldl_append, List.foldl_cons, List.foldl_nil]
      have hkey := v2Steps_frame edits (v2NormRow r)
      have hm : matchV2 e (edits.foldl (fun r e => v2Step e r) (v2NormRow r)) = false := by
        rw [matchV2_congr e _ (v2NormRow r) hkey.1 hkey.2.1]
        exact h r hr
      rw [v2Step, if_neg (by simp [hm])]
    exact ⟨by simp only [saveCommentsV2Run, htab], rfl⟩
  · intro edits e t h
    have htab : saveCommentsV4 (edits ++ [e]) t = saveCommentsV4 edits t := by
      rw [saveCommentsV4_eq_map, saveCommentsV4_eq_map]
      refine List.map_congr_left ?_
      intro r hr
      rw [v4RowFun, v4RowFun, List.foldl_append, List.foldl_cons, List.foldl_nil]
      have hkey := v4Steps_frame edits (v4NormRow r)
      have hm : matchV4 e (edits.foldl (fun r e => v4Step e r) (v4NormRow r)) = false := by
        rw [matchV4_congr e _ (v4NormRow r) hkey.1 hkey.2.1]
        exact h r hr
      rw [v4Step, if_neg (by simp [hm])]
    exact ⟨by simp only [saveCommentsV4Run, htab], rfl⟩

/-- Witness for C4 in both variants: a concrete edited row whose
identity is absent from the re-read table changes nothing and the
success notice is still the result. -/
theorem c4_unmatched_edit_noop_witness :
    (saveCommentsV2Run
        ([⟨"E1", "2024-01-01 00:00:00", "h1", "o1"⟩] ++ [⟨"E9", "2024-02-02 00:00:00", "nh", "no"⟩])
        [⟨"E1", "2024-01-01 10:00:00", "0.42", "h", "o", ["keep"]⟩]
      = saveCommentsV2Run [⟨"E1", "2024-01-01 00:00:00", "h1", "o1"⟩]
        [⟨"E1", "2024-01-01 10:00:00", "0.42", "h", "o", ["keep"]⟩]
      ∧ (saveCommentsV2Run
          ([⟨"E1", "2024-01-01 00:00:00", "h1", "o1"⟩] ++ [⟨"E9", "2024-02-02 00:00:00", "nh", "no"⟩])
          [⟨"E1", "2024-01-01 10:00:00", "0.42", "h", "o", ["keep"]⟩]).message
        = "Comments saved successfully!")
    ∧ (saveCommentsV4Run
        ([⟨"E1", "2024-01-01", "h1", "o1", "Yes"⟩] ++ [⟨"E9", "2024-02-02", "nh", "no", "No"⟩])
        [⟨"E1", "2024-01-01 10:00:00", "h", "o", "Yes", ["x"], ["EXTRA"]⟩]
      = saveCommentsV4Run [⟨"E1", "2024-01-01", "h1", "o1", "Yes"⟩]
        [⟨"E1", "2024-01-01 10:00:00", "h", "o", "Yes", ["x"], ["EXTRA"]⟩]
      ∧ (saveCommentsV4Run
          ([⟨"E1", "2024-01-01", "h1", "o1", "Yes"⟩] ++ [⟨"E9", "2024-02-02", "nh", "no", "No"⟩])
          [⟨"E1", "2024-01-01 10:00:00", "h", "o", "Yes", ["x"], ["EXTRA"]⟩]).message
        = "Comments saved successfully!") :=
  ⟨c4_unmatched_edit_noop.1 [⟨"E1", "2024-01-01 00:00:00", "h1", "o1"⟩]
      ⟨"E9", "2024-02-02 00:00:00", "nh", "no"⟩
      [⟨"E1", "2024-01-01 10:00:00", "0.42", "h", "o", ["keep"]⟩]
      (by decide),
    c4_unmatched_edit_noop.2 [⟨"E1", "2024-01-01", "h1", "o1", "Yes"⟩]
      ⟨"E9", "2024-02-02", "nh", "no", "No"⟩
      [⟨"E1", "2024-01-01 10:00:00", "h", "o", "Yes", ["x"], ["EXTRA"]⟩]
      (by decide)⟩

/-- C5: the composite-identity match is a multi-row broadcast.  Keyed on
an identity carried by several authoritative rows, a v2 save-comments
edit overwrites the comment fields of every matching row (at every
matching index), and a v2 delete removes every matching row (no surviving
row matches the key) while every non-matching row survives. -/
theorem c5_duplicate_identity_broadcast :
    (∀ (e : EditV2) (t : List RowV2) (i : Nat), i < t.length →
      matchV2 e (v2NormRow (t.getD i rowV2Default)) = true →
      ((saveCommentsV2 [e] t).getD i rowV2Default).hr = e.hr
        ∧ ((saveCommentsV2 [e] t).getD i rowV2Default).ops = e.ops)
    ∧ (∀ (k : DelKey) (t : List RowV2) (r : RowV2),
        r ∈ deleteRowsV2 [k] t → delMatchV2 k r = false)
    ∧ (∀ (k : DelKey) (t : List RowV2) (r : RowV2),
        r ∈ t → delMatchV2 k r = false → v2NormRow r ∈ deleteRowsV2 [k] t) := by
  refine ⟨?_, ?_, ?_⟩
  · intro e t i hi hm
    have hget : (saveCommentsV2 [e] t).getD i rowV2Default
        = v2RowFun [e] (t.getD i rowV2Default) := by
      rw [saveCommentsV2_eq_map, map_getD_lt (v2RowFun [e]) t i rowV2Default rowV2Default hi]
    rw [hget, v2RowFun, List.foldl_cons, List.foldl_nil, v2Step, if_pos hm]
    exact ⟨rfl, rfl⟩
  · intro k t r hr
    rw [deleteRowsV2] at hr
    rcases List.mem_map.mp hr with ⟨r0, hr0, rfl⟩
    obtain ⟨_, hp⟩ := List.mem_filter.mp hr0
    rw [delMatchV2_normRow]
    simpa using hp
  · intro k t r hrt hm
    rw [deleteRowsV2]
    refine List.mem_map.mpr ⟨r, ?_, rfl⟩
    refine List.mem_filter.mpr ⟨hrt, ?_⟩
    simp [hm]

/-- Witness for C5 on a table with a duplicated composite identity: the
edit lands on both duplicate rows, the delete removes both, and an
unrelated row survives the delete. -/
theorem c5_duplicate_identity_broadcast_witness :
    (((saveCommentsV2 [⟨"E1", "2024-01-01 00:00:00", "nh", "no"⟩]
        [⟨"E1", "2024-01-01 00:00:00", "0.42", "a", "b", []⟩,
         ⟨"E1", "2024-01-01 00:00:00", "0.9", "c", "d", []⟩]).getD 0 rowV2Default).hr = "nh"
      ∧ ((saveCommentsV2 [⟨"E1", "2024-01-01 00:00:00", "nh", "no"⟩]
        [⟨"E1", "2024-01-01 00:00:00", "0.42", "a", "b", []⟩,
         ⟨"E1", "2024-01-01 00:00:00", "0.9", "c", "d", []⟩]).getD 0 rowV2Default).ops = "no")
    ∧ (((saveCommentsV2 [⟨"E1", "2024-01-01 00:00:00", "nh", "no"⟩]
        [⟨"E1", "2024-01-01 00:00:00", "0.42", "a", "b", []⟩,
         ⟨"E1", "2024-01-01 00:00:00", "0.9", "c", "d", []⟩]).getD 1 rowV2Default).hr = "nh"
      ∧ ((saveCommentsV2 [⟨"E1", "2024-01-01 00:00:00", "nh", "no"⟩]
        [⟨"E1", "2024-01-01 00:00:00", "0.42", "a", "b", []⟩,
         ⟨"E1", "2024-01-01 00:00:00", "0.9", "c", "d", []⟩]).getD 1 rowV2Default).ops = "no")
    ∧ delMatchV2 ⟨"E1", "2024-01-01 00:00:00"⟩
        (⟨"E2", "2024-01-01 00:00:00", "0.1", "", "", []⟩ : RowV2) = false
    ∧ v2NormRow (⟨"E2", "2024-01-01 00:00:00", "0.1", "", "", []⟩ : RowV2)
        ∈ deleteRowsV2 [⟨"E1", "2024-01-01 00:00:00"⟩]
          [⟨"E1", "2024-01-01 00:00:00", "0.42", "a", "b", []⟩,
           ⟨"E1", "2024-01-01 00:00:00", "0.9", "c", "d", []⟩,
           ⟨"E2", "2024-01-01 00:00:00", "0.1", "", "", []⟩] := by
  refine ⟨?_, ?_, by decide, ?_⟩
  · exact c5_duplicate_identity_broadcast.1 ⟨"E1", "2024-01-01 00:00:00", "nh", "no"⟩
      [⟨"E1", "2024-01-01 00:00:00", "0.42", "a", "b", []⟩,
       ⟨"E1", "2024-01-01 00:00:00", "0.9", "c", "d", []⟩] 0 (by decide) (by decide)
  · exact c5_duplicate_identity_broadcast.1 ⟨"E1", "2024-01-01 00:00:00", "nh", "no"⟩
      [⟨"E1", "2024-01-01 00:00:00", "0.42", "a", "b", []⟩,
       ⟨"E1", "2024-01-01 00:00:00", "0.9", "c", "d", []⟩] 1 (by decide) (by decide)
  · exact c5_duplicate_identity_broadcast.2.2 ⟨"E1", "2024-01-01 00:00:00"⟩
      [⟨"E1", "2024-01-01 00:00:00", "0.42", "a", "b", []⟩,
       ⟨"E1", "2024-01-01 00:00:00", "0.9", "c", "d", []⟩,
       ⟨"E2", "2024-01-01 00:00:00", "0.1", "", "", []⟩]
      ⟨"E2", "2024-01-01 00:00:00", "0.1", "", "", []⟩ (by decide) (by decide)
